import Mathlib

/-!
# Verification of the RGB issuer contract verification scripts

Shallow embedding of the asset-verification routines of the `rgb-issuers`
repository (`src/rust/src/scripts/{shared,fungible,unique,divisible,collection}.rs`).

The routines are written in zkAluVM assembly (via the `uasm!` macro).  The
embedding models each routine as a pure Lean function over the four state
sequences of an operation (`immutable_input`, `immutable_output`,
`destructible_input`, `destructible_output`), mirroring the instruction
sequence of the source.  The virtual machine itself is an external
dependency of the repository; the instruction semantics used here are the
ones under which the inline comments of the scripts and the expectations of
the test suite shipped in the same files hold:

* `ldo`/`ldi` load the next value of a cursor into registers `EA`-`ED` and
  set the condition flag to the success state exactly when a value was read
  (`FN_ASSET_SPEC`: `ldo immutable; chk CO  // it must exist`);
* `chk CO` halts with the error code held in `E1` unless the flag is in the
  success state; `not CO` inverts the flag;
* `jif CO, t` branches exactly when the flag is in the failure state (this is
  the only reading under which the ubiquitous loop idiom
  `ldi ...; not CO; jif CO, +3; ret; <body>` exits on exhaustion and runs the
  body otherwise, and under which `ldo immutable; jif CO, END_TOKENS` in
  divisible.rs completes the token loop on exhaustion as its comment states);
* `test R` succeeds exactly when register `R` holds a value
  (`test EB; chk CO  // there must be a value`);
* `eq A, B` on two populated registers succeeds exactly on equal values; a
  comparison of two unpopulated registers fails (the `sum_inputs` test of
  shared.rs succeeds on plain amount cells through
  `eq EC, EE; not CO; chk CO` with both registers empty), while a comparison
  with exactly one unpopulated register succeeds (the `genesis_correct` test
  of unique.rs succeeds through `eq E4, EH` with `E4` never assigned, and the
  doc comment of `FN_SUM_INPUTS` in shared.rs states that a populated `EC`
  against an unpopulated `EE` makes the procedure fail);
* `fits R, n.bits` succeeds when `R` holds a value below `2 ^ n`, and
  trivially succeeds on an unpopulated register (the `genesis_correct` test
  of fungible.rs succeeds through `fits E4, 8.bits` with `E4` never
  assigned);
* `add D, S` is addition in the prime field of order `FIELD_ORDER`
  (`GfaConfig { field_order: FIELD_ORDER_SECP }`).

Registers hold `Option Nat` values (an unpopulated register is `none`).
Failure is modelled by `Except Err`, where `Err` carries the `ERRNO_*`
constants of the source; `staleE1` stands for a halt at a point where the
source never assigned an error code to `E1`.
-/

namespace RgbIssuers

/-- Order of the prime field used by the arithmetic instructions
(`FIELD_ORDER_SECP`, the secp256k1 base field).  The development only uses
that it is (vastly) larger than `2 ^ 65`. -/
def FIELD_ORDER : Nat := 2 ^ 256 - 2 ^ 32 - 977

/-- Global state type `G_NAME` (lib.rs). -/
def G_NAME : Nat := 0
/-- Global state type `G_TICKER` (lib.rs). -/
def G_TICKER : Nat := 1
/-- Global state type `G_PRECISION` (lib.rs). -/
def G_PRECISION : Nat := 2
/-- Global state type `G_SUPPLY` (lib.rs). -/
def G_SUPPLY : Nat := 3
/-- Global state type `G_NFT` (lib.rs, equal to `G_SUPPLY`). -/
def G_NFT : Nat := 3
/-- Global state type `G_DETAILS` (lib.rs, equal to `G_TICKER`). -/
def G_DETAILS : Nat := 1
/-- Owned state type `O_AMOUNT` (lib.rs, equal to `G_NAME`). -/
def O_AMOUNT : Nat := 0

/-- A state value: a state-type tag plus up to three payload field elements.
Loading one via `ldo`/`ldi` puts the four slots into registers `EA`, `EB`,
`EC`, `ED` respectively (hypersonic `StateValue`). -/
structure StateValue where
  tag : Option Nat
  v1 : Option Nat
  v2 : Option Nat
  v3 : Option Nat
deriving DecidableEq, Repr

/-- Error codes of the verification scripts (the `ERRNO_*` constants of
fungible.rs, unique.rs and the shared library, plus `staleE1` for halts at
which the source routines never assigned a code to `E1`). -/
inductive Err where
  | ERRNO_NO_TICKER
  | ERRNO_NO_NAME
  | ERRNO_NO_PRECISION
  | ERRNO_INVALID_PRECISION
  | ERRNO_UNEXPECTED_GLOBAL_IN
  | ERRNO_UNEXPECTED_GLOBAL_OUT
  | ERRNO_UNEXPECTED_OWNED_IN
  | ERRNO_PRECISION_OVERFLOW
  | ERRNO_NO_ISSUED
  | ERRNO_SUM_ISSUE_MISMATCH
  | ERRNO_UNEXPECTED_GLOBAL
  | ERRNO_SUM_MISMATCH
  | ERRNO_UNEXPECTED_OWNED_TYPE_IN
  | ERRNO_INVALID_BALANCE_IN
  | ERRNO_UNEXPECTED_OWNED_TYPE_OUT
  | ERRNO_INVALID_BALANCE_OUT
  | ERRNO_FRACTIONALITY
  | ERRNO_NO_TOKEN_ID
  | ERRNO_INVALID_TOKEN_ID
  | ERRNO_TOKEN_EXCESS
  | ERRNO_NO_INPUT
  | ERRNO_TOKEN_EXCESS_IN
  | ERRNO_NO_OUTPUT
  | ERRNO_TOKEN_EXCESS_OUT
  | staleE1
deriving DecidableEq, Repr

/-- Register comparison `eq A, B` (success value of the condition flag).
Two populated registers compare by value; two unpopulated registers are not
equal; exactly one unpopulated register succeeds (see the header comment for
the test evidence pinning the unpopulated cases). -/
def eqR : Option Nat → Option Nat → Bool
  | some a, some b => a == b
  | none, none => false
  | _, _ => true

/-- Register test `test R`: succeeds when the register holds a value. -/
def testR : Option Nat → Bool
  | some _ => true
  | none => false

/-- Bit-width check `fits R, w.bits`: a populated register must hold a value
below `2 ^ w`; an unpopulated register passes trivially. -/
def fitsR : Option Nat → Nat → Bool
  | some a, w => decide (a < 2 ^ w)
  | none, _ => true

/-- Field addition `add D, S` on registers: both operands populated add
modulo the field order; otherwise the destination is left unpopulated. -/
def addR : Option Nat → Option Nat → Option Nat
  | some a, some b => some ((a + b) % FIELD_ORDER)
  | _, _ => none

/-- A plain fungible amount cell: tag `O_AMOUNT`, primary payload the amount,
secondary and tertiary payloads empty (`StateValue::new(O_AMOUNT, val)`). -/
def amountCell (a : Nat) : StateValue := ⟨some O_AMOUNT, some a, none, none⟩

/-- A unique-token allocation cell: tag `O_AMOUNT`, primary payload the token
id, secondary payload the fractions (unique.rs `StateValue::Triple`). -/
def tokenCell (id fr : Nat) : StateValue := ⟨some O_AMOUNT, some id, some fr, none⟩

/-- A divisible-token allocation cell: tag `O_AMOUNT`, primary payload the
amount, secondary payload the token id (divisible.rs layout, where the sum
loops accumulate `EB` and filter on `EC`). -/
def nftCell (amount id : Nat) : StateValue := ⟨some O_AMOUNT, some amount, some id, none⟩

/-- The ticker (or details) global fact. -/
def tickerFact (v : Nat) : StateValue := ⟨some G_TICKER, some v, none, none⟩
/-- The asset-name global fact. -/
def nameFact (v : Nat) : StateValue := ⟨some G_NAME, some v, none, none⟩
/-- The precision global fact. -/
def precisionFact (p : Nat) : StateValue := ⟨some G_PRECISION, some p, none, none⟩
/-- The circulating-supply global fact. -/
def supplyFact (s : Nat) : StateValue := ⟨some G_SUPPLY, some s, none, none⟩
/-- A token-spec global fact (tag `G_NFT`, primary payload the token id). -/
def nftFact (id : Nat) : StateValue := ⟨some G_NFT, some id, none, none⟩

/-! ## Shared library (shared.rs) -/

/-- Procedure `FN_ASSET_SPEC` of the shared library (shared.rs lines 92-133):
requires no consumed global and no consumed destructible state (`cknxi`),
then reads three global output facts in order, checking the ticker (or
details) tag, the name tag, and the precision tag with a populated primary
payload and empty secondary and tertiary payloads.  It returns the contents
of register `EB` after the third load (the precision primary payload)
together with the not-yet-consumed remainder of the global output cursor.
The error codes are modelled from the spec (section 4.1 and section 7): the
revision of shared.rs that assigns `ERRNO_NO_TICKER`, `ERRNO_NO_NAME`,
`ERRNO_NO_PRECISION`, `ERRNO_INVALID_PRECISION`, `ERRNO_UNEXPECTED_GLOBAL_IN`
and `ERRNO_UNEXPECTED_OWNED_IN` to `E1` is referenced by mod.rs but absent
from src; the check order itself is exactly that of the source. -/
def FN_ASSET_SPEC (gin din gout : List StateValue) :
    Except Err (Option Nat × List StateValue) :=
  if ¬ gin.isEmpty then .error .ERRNO_UNEXPECTED_GLOBAL_IN
  else if ¬ din.isEmpty then .error .ERRNO_UNEXPECTED_OWNED_IN
  else match gout with
  | [] => .error .ERRNO_NO_TICKER
  | f1 :: g1 =>
    if ¬ eqR f1.tag (some G_TICKER) then .error .ERRNO_NO_TICKER
    else match g1 with
    | [] => .error .ERRNO_NO_NAME
    | f2 :: g2 =>
      if ¬ eqR f2.tag (some G_NAME) then .error .ERRNO_NO_NAME
      else match g2 with
      | [] => .error .ERRNO_NO_PRECISION
      | f3 :: g3 =>
        if ¬ eqR f3.tag (some G_PRECISION) then .error .ERRNO_NO_PRECISION
        else if ¬ testR f3.v1 then .error .ERRNO_INVALID_PRECISION
        else if testR f3.v2 then .error .ERRNO_INVALID_PRECISION
        else if testR f3.v3 then .error .ERRNO_INVALID_PRECISION
        else .ok (f3.v1, g3)

/-- Modelled from the spec: procedure `FN_GLOBAL_ABSENT` of the shared
library.  It is called by the fungible and unique transfer verifiers and
re-exported by mod.rs, but the revision of shared.rs defining it is absent
from src.  Per the spec (section 4.3): require zero global facts on both the
input and the output side, else `UNEXPECTED_GLOBAL_IN` / `_OUT`. -/
def FN_GLOBAL_ABSENT (gin gout : List StateValue) : Except Err Unit :=
  if ¬ gin.isEmpty then .error .ERRNO_UNEXPECTED_GLOBAL_IN
  else if ¬ gout.isEmpty then .error .ERRNO_UNEXPECTED_GLOBAL_OUT
  else .ok ()

/-- Loop `LOOP_INPUTS` of procedure `FN_SUM_INPUTS` of the shared library
(shared.rs lines 140-172).  Arguments: the error code currently held in `E1`
(this routine never assigns one), the filter register `EE`, the remaining
input cells, and the accumulator `E2`.  Per cell: the tag must equal
`O_AMOUNT`; if `EE` is unpopulated, `eq EC, EE; not CO; chk CO` enforces
that `EC` is unpopulated; if `EE` is populated, cells whose `EC` differs
are skipped; then `ED` must be unpopulated, the value must fit 64 bits, and
the accumulator after `add` must fit 64 bits. -/
def LOOP_INPUTS_SHARED (e1 : Err) (ee : Option Nat) :
    List StateValue → Option Nat → Except Err (Option Nat)
  | [], acc => .ok acc
  | c :: rest, acc =>
    if ¬ eqR c.tag (some O_AMOUNT) then .error e1
    else if testR ee then
      -- filter mode: `eq EC, EE; jif CO, LOOP_INPUTS; jmp +4`
      if ¬ eqR c.v2 ee then LOOP_INPUTS_SHARED e1 ee rest acc
      else
        if testR c.v3 then .error e1
        else if ¬ fitsR c.v1 64 then .error e1
        else
          let acc2 := addR acc c.v1
          if ¬ fitsR acc2 64 then .error e1
          else LOOP_INPUTS_SHARED e1 ee rest acc2
    else
      -- `EE` unpopulated: `eq EC, EE; not CO; chk CO` fails exactly when
      -- `EC` is populated (comparison with exactly one populated register
      -- succeeds, and the flag is then inverted)
      if eqR c.v2 ee then .error e1
      else if testR c.v3 then .error e1
      else if ¬ fitsR c.v1 64 then .error e1
      else
        let acc2 := addR acc c.v1
        if ¬ fitsR acc2 64 then .error e1
        else LOOP_INPUTS_SHARED e1 ee rest acc2

/-- Procedure `FN_SUM_INPUTS` of the shared library: initializes the
accumulator `E2` to zero and runs the input loop. -/
def FN_SUM_INPUTS_SHARED (e1 : Err) (ee : Option Nat) (din : List StateValue) :
    Except Err (Option Nat) :=
  LOOP_INPUTS_SHARED e1 ee din (some 0)

/-! ## Fungible verifier (fungible.rs) -/

/-- Loop `LOOP_INPUTS` of procedure `FN_FUNGIBLE_SUM_INPUTS` (fungible.rs
lines 148-175).  Argument `ee` is the value held by register `EE` at entry
(the procedure itself never assigns it; on both call paths of the library it
still holds its initial unpopulated value).  Per cell: the tag must equal
`O_AMOUNT` (else `ERRNO_UNEXPECTED_OWNED_TYPE_IN`); `eq EC, EE; not CO;
chk CO` fails with `ERRNO_INVALID_BALANCE_IN` exactly when the comparison
succeeds; `ED` must be unpopulated; the value and the accumulator after
`add` must fit 64 bits (else `ERRNO_INVALID_BALANCE_IN`). -/
def LOOP_INPUTS_FUNG (ee : Option Nat) :
    List StateValue → Option Nat → Except Err (Option Nat)
  | [], acc => .ok acc
  | c :: rest, acc =>
    if ¬ eqR c.tag (some O_AMOUNT) then .error .ERRNO_UNEXPECTED_OWNED_TYPE_IN
    else if eqR c.v2 ee then .error .ERRNO_INVALID_BALANCE_IN
    else if testR c.v3 then .error .ERRNO_INVALID_BALANCE_IN
    else if ¬ fitsR c.v1 64 then .error .ERRNO_INVALID_BALANCE_IN
    else
      let acc2 := addR acc c.v1
      if ¬ fitsR acc2 64 then .error .ERRNO_INVALID_BALANCE_IN
      else LOOP_INPUTS_FUNG ee rest acc2

/-- Procedure `FN_FUNGIBLE_SUM_INPUTS` (fungible.rs lines 143-175):
initializes the accumulator `E2` to zero and iterates the input
destructible cursor from the start. -/
def FN_FUNGIBLE_SUM_INPUTS (ee : Option Nat) (din : List StateValue) :
    Except Err (Option Nat) :=
  LOOP_INPUTS_FUNG ee din (some 0)

/-- Loop `LOOP_OUTPUTS` of procedure `FN_FUNGIBLE_SUM_OUTPUTS` (fungible.rs
lines 182-209).  Identical to the input loop except that the check on `EC`
is `test EC; not CO; chk CO` (fails exactly when `EC` is populated) and the
error codes are the output-side ones. -/
def LOOP_OUTPUTS_FUNG :
    List StateValue → Option Nat → Except Err (Option Nat)
  | [], acc => .ok acc
  | c :: rest, acc =>
    if ¬ eqR c.tag (some O_AMOUNT) then .error .ERRNO_UNEXPECTED_OWNED_TYPE_OUT
    else if testR c.v2 then .error .ERRNO_INVALID_BALANCE_OUT
    else if testR c.v3 then .error .ERRNO_INVALID_BALANCE_OUT
    else if ¬ fitsR c.v1 64 then .error .ERRNO_INVALID_BALANCE_OUT
    else
      let acc2 := addR acc c.v1
      if ¬ fitsR acc2 64 then .error .ERRNO_INVALID_BALANCE_OUT
      else LOOP_OUTPUTS_FUNG rest acc2

/-- Procedure `FN_FUNGIBLE_SUM_OUTPUTS` (fungible.rs lines 177-209). -/
def FN_FUNGIBLE_SUM_OUTPUTS (dout : List StateValue) : Except Err (Option Nat) :=
  LOOP_OUTPUTS_FUNG dout (some 0)

/-- Routine `FN_FUNGIBLE_ISSUE` (fungible.rs lines 88-126): runs
`FN_ASSET_SPEC`; checks `fits E4, 8.bits` with error
`ERRNO_PRECISION_OVERFLOW` — register `E4` is never assigned by
`FN_ASSET_SPEC` (whose documented output register is `EB`) nor by anything
before this point, so the check runs on an unpopulated register; reads the
next global fact, which must exist, carry tag `G_SUPPLY`, a populated
primary payload and empty secondary and tertiary payloads (else
`ERRNO_NO_ISSUED`); sums the outputs; requires the declared supply to equal
the sum (else `ERRNO_SUM_ISSUE_MISMATCH`); requires no further global facts
(else `ERRNO_UNEXPECTED_GLOBAL`). -/
def FN_FUNGIBLE_ISSUE (gin din gout dout : List StateValue) : Except Err Unit :=
  match FN_ASSET_SPEC gin din gout with
  | .error e => .error e
  | .ok (_eb, rest) =>
    -- `fits E4, 8.bits; chk CO`: `E4` is unpopulated here (the precision
    -- returned by `FN_ASSET_SPEC` lives in `EB` and is not consulted)
    if ¬ fitsR none 8 then .error .ERRNO_PRECISION_OVERFLOW
    else match rest with
    | [] => .error .ERRNO_NO_ISSUED
    | s :: rest2 =>
      if ¬ eqR s.tag (some G_SUPPLY) then .error .ERRNO_NO_ISSUED
      else if ¬ testR s.v1 then .error .ERRNO_NO_ISSUED
      else if testR s.v2 then .error .ERRNO_NO_ISSUED
      else if testR s.v3 then .error .ERRNO_NO_ISSUED
      else match FN_FUNGIBLE_SUM_OUTPUTS dout with
      | .error e => .error e
      | .ok e3 =>
        if ¬ eqR s.v1 e3 then .error .ERRNO_SUM_ISSUE_MISMATCH
        else if ¬ rest2.isEmpty then .error .ERRNO_UNEXPECTED_GLOBAL
        else .ok ()

/-- Routine `FN_FUNGIBLE_TRANSFER` (fungible.rs lines 128-141): runs
`FN_GLOBAL_ABSENT`, sums the inputs and the outputs (register `EE` still
holds its initial unpopulated value), and requires the sums to be equal
(else `ERRNO_SUM_MISMATCH`). -/
def FN_FUNGIBLE_TRANSFER (gin gout din dout : List StateValue) : Except Err Unit :=
  match FN_GLOBAL_ABSENT gin gout with
  | .error e => .error e
  | .ok () =>
    match FN_FUNGIBLE_SUM_INPUTS none din with
    | .error e => .error e
    | .ok e2 =>
      match FN_FUNGIBLE_SUM_OUTPUTS dout with
      | .error e => .error e
      | .ok e3 =>
        if ¬ eqR e2 e3 then .error .ERRNO_SUM_MISMATCH
        else .ok ()

/-! ## Unique-token verifier (unique.rs) -/

/-- Procedure `FN_GLOBAL_VERIFY_TOKEN` (unique.rs lines 75-93), applied to
the registers loaded from a global token fact: the tag must equal `G_NFT`
(error code `ERRNO_UNEXPECTED_GLOBAL_IN`, as in the source), the token id
(`EB`) must be populated (else `ERRNO_NO_TOKEN_ID`), and `EC`, `ED` must be
unpopulated (else `ERRNO_INVALID_TOKEN_ID`).  Returns the token id saved
into `E3`. -/
def FN_GLOBAL_VERIFY_TOKEN (f : StateValue) : Except Err (Option Nat) :=
  if ¬ eqR f.tag (some G_NFT) then .error .ERRNO_UNEXPECTED_GLOBAL_IN
  else if ¬ testR f.v1 then .error .ERRNO_NO_TOKEN_ID
  else if testR f.v2 then .error .ERRNO_INVALID_TOKEN_ID
  else if testR f.v3 then .error .ERRNO_INVALID_TOKEN_ID
  else .ok f.v1

/-- Procedure `FN_OWNED_TOKEN` (unique.rs lines 99-112), applied to the
registers loaded from an owned allocation cell.  This procedure assigns no
error code, so failures surface the code `e1` currently held in `E1`.  The
tag must equal `O_AMOUNT`; the token id (`EB`) and the fractions (`EC`)
must be populated; `ED` must be unpopulated.  Returns the token id (`E3`)
and the fractions (`E4`). -/
def FN_OWNED_TOKEN (e1 : Err) (c : StateValue) : Except Err (Option Nat × Option Nat) :=
  if ¬ eqR c.tag (some O_AMOUNT) then .error e1
  else if ¬ testR c.v1 then .error e1
  else if ¬ testR c.v2 then .error e1
  else if testR c.v3 then .error e1
  else .ok (c.v1, c.v2)

/-- Routine `VERIFY_TOKEN` (unique.rs lines 159-165): gets the token id and
fractions via `FN_OWNED_TOKEN`, then requires the fractions to equal 1
(else `ERRNO_FRACTIONALITY`).  Returns the token id. -/
def VERIFY_TOKEN (e1 : Err) (c : StateValue) : Except Err (Option Nat) :=
  match FN_OWNED_TOKEN e1 c with
  | .error e => .error e
  | .ok (id, fr) =>
    if ¬ eqR fr (some 1) then .error .ERRNO_FRACTIONALITY
    else .ok id

/-- Routine `VERIFY_IN_TOKEN` (unique.rs lines 135-145): restarts the input
cursor, requires a first input cell (else `ERRNO_NO_INPUT`), verifies it via
`VERIFY_TOKEN` (with `ERRNO_NO_INPUT` still in `E1`), and requires that no
further input exists (else `ERRNO_TOKEN_EXCESS_IN`). -/
def VERIFY_IN_TOKEN (din : List StateValue) : Except Err (Option Nat) :=
  match din with
  | [] => .error .ERRNO_NO_INPUT
  | c :: rest =>
    match VERIFY_TOKEN .ERRNO_NO_INPUT c with
    | .error e => .error e
    | .ok id =>
      if ¬ rest.isEmpty then .error .ERRNO_TOKEN_EXCESS_IN
      else .ok id

/-- Routine `VERIFY_OUT_TOKEN` (unique.rs lines 147-157): same as
`VERIFY_IN_TOKEN` on the output cursor, with codes `ERRNO_NO_OUTPUT` and
`ERRNO_TOKEN_EXCESS_OUT`. -/
def VERIFY_OUT_TOKEN (dout : List StateValue) : Except Err (Option Nat) :=
  match dout with
  | [] => .error .ERRNO_NO_OUTPUT
  | c :: rest =>
    match VERIFY_TOKEN .ERRNO_NO_OUTPUT c with
    | .error e => .error e
    | .ok id =>
      if ¬ rest.isEmpty then .error .ERRNO_TOKEN_EXCESS_OUT
      else .ok id

/-- Routine `VERIFY_GLOBAL_TOKEN` (unique.rs lines 126-133): `ldo immutable`
with no `chk` after it, then `FN_GLOBAL_VERIFY_TOKEN`, then no further
global fact may remain (else `ERRNO_TOKEN_EXCESS`).  When no fact remains to
be loaded, `FN_GLOBAL_VERIFY_TOKEN` runs on the registers left by
`FN_ASSET_SPEC` (`EA`, `EC`, `ED` cleared, `EB` holding the precision
payload): the tag comparison against an unpopulated `EA` succeeds, `EB` is
populated, `EC` and `ED` are clear, so the procedure succeeds with the
precision payload as token id.  Argument `eb` is the register value left in
`EB` by the preamble. -/
def VERIFY_GLOBAL_TOKEN (eb : Option Nat) (rest : List StateValue) :
    Except Err (Option Nat) :=
  match rest with
  | [] =>
    -- stale-register run: eq EA(none), EH succeeds; test EB needs the
    -- precision payload; EC, ED were cleared by FN_ASSET_SPEC
    if ¬ testR eb then .error .ERRNO_NO_TOKEN_ID
    else .ok eb
  | f :: rest2 =>
    match FN_GLOBAL_VERIFY_TOKEN f with
    | .error e => .error e
    | .ok id =>
      if ¬ rest2.isEmpty then .error .ERRNO_TOKEN_EXCESS
      else .ok id

/-- Procedure `FN_RGB21_ISSUE` of the unique-token library (unique.rs lines
56-68): runs `FN_ASSET_SPEC`; checks `eq E4, EH` with `EH = 1` and error
`ERRNO_FRACTIONALITY` — register `E4` is never assigned by `FN_ASSET_SPEC`
(whose output register is `EB`) nor by anything before this point, so the
comparison runs with an unpopulated left operand and succeeds; then
verifies the global token fact via `VERIFY_GLOBAL_TOKEN` and the single
owned output via `VERIFY_OUT_TOKEN`.  The token id returned by the global
verification (`E3`) is overwritten by the owned verification and never
compared against the output id. -/
def FN_RGB21_ISSUE_UNIQUE (gin din gout dout : List StateValue) : Except Err Unit :=
  match FN_ASSET_SPEC gin din gout with
  | .error e => .error e
  | .ok (eb, rest) =>
    -- `put EH, 1; eq E4, EH; chk CO`: `E4` is unpopulated here
    if ¬ eqR none (some 1) then .error .ERRNO_FRACTIONALITY
    else match VERIFY_GLOBAL_TOKEN eb rest with
    | .error e => .error e
    | .ok _tokenId =>
      match VERIFY_OUT_TOKEN dout with
      | .error e => .error e
      | .ok _outId => .ok ()

/-- Procedure `FN_UNIQUE_TRANSFER` (unique.rs lines 117-124): runs
`FN_GLOBAL_ABSENT`, verifies the single input token, saves its id
(`mov E5, E3`), verifies the single output token, and requires the two ids
to be equal (`eq E3, E5; chk CO` — `E1` still holds
`ERRNO_TOKEN_EXCESS_OUT` from `VERIFY_OUT_TOKEN`, so that is the code an id
mismatch surfaces). -/
def FN_UNIQUE_TRANSFER (gin gout din dout : List StateValue) : Except Err Unit :=
  match FN_GLOBAL_ABSENT gin gout with
  | .error e => .error e
  | .ok () =>
    match VERIFY_IN_TOKEN din with
    | .error e => .error e
    | .ok idIn =>
      match VERIFY_OUT_TOKEN dout with
      | .error e => .error e
      | .ok idOut =>
        if ¬ eqR idOut idIn then .error .ERRNO_TOKEN_EXCESS_OUT
        else .ok ()

/-! ## Divisible-token verifier (divisible.rs) -/

/-- Loop `LOOP_INPUTS` of procedure `FN_SUM_INPUTS` of divisible.rs (lines
168-193, entry point `FN_NFT_SUM_INPUTS`).  The routine assigns no error
code, so failures surface the code `e1` held in `E1`.  Per cell: the tag
must equal `O_AMOUNT`; cells whose `EC` does not match the filter `EE` are
skipped; `ED` must be unpopulated; the value (`EB`) and the accumulator
after `add` must fit 64 bits. -/
def LOOP_INPUTS_NFT (e1 : Err) (ee : Option Nat) :
    List StateValue → Option Nat → Except Err (Option Nat)
  | [], acc => .ok acc
  | c :: rest, acc =>
    if ¬ eqR c.tag (some O_AMOUNT) then .error e1
    else if ¬ eqR c.v2 ee then LOOP_INPUTS_NFT e1 ee rest acc
    else if testR c.v3 then .error e1
    else if ¬ fitsR c.v1 64 then .error e1
    else
      let acc2 := addR acc c.v1
      if ¬ fitsR acc2 64 then .error e1
      else LOOP_INPUTS_NFT e1 ee rest acc2

/-- Procedure `FN_NFT_SUM_INPUTS` (divisible.rs lines 163-193). -/
def FN_NFT_SUM_INPUTS (e1 : Err) (ee : Option Nat) (din : List StateValue) :
    Except Err (Option Nat) :=
  LOOP_INPUTS_NFT e1 ee din (some 0)

/-- Loop `LOOP_OUTPUTS` of procedure `FN_SUM_OUTPUTS` of divisible.rs (lines
200-225, entry point `FN_NFT_SUM_OUTPUTS`); identical checks on the output
cursor. -/
def LOOP_OUTPUTS_NFT (e1 : Err) (ee : Option Nat) :
    List StateValue → Option Nat → Except Err (Option Nat)
  | [], acc => .ok acc
  | c :: rest, acc =>
    if ¬ eqR c.tag (some O_AMOUNT) then .error e1
    else if ¬ eqR c.v2 ee then LOOP_OUTPUTS_NFT e1 ee rest acc
    else if testR c.v3 then .error e1
    else if ¬ fitsR c.v1 64 then .error e1
    else
      let acc2 := addR acc c.v1
      if ¬ fitsR acc2 64 then .error e1
      else LOOP_OUTPUTS_NFT e1 ee rest acc2

/-- Procedure `FN_NFT_SUM_OUTPUTS` (divisible.rs lines 195-225). -/
def FN_NFT_SUM_OUTPUTS (e1 : Err) (ee : Option Nat) (dout : List StateValue) :
    Except Err (Option Nat) :=
  LOOP_OUTPUTS_NFT e1 ee dout (some 0)

/-- Loop `LOOP_TOKEN` of procedure `FN_DIVISIBLE_TRANSFER` (divisible.rs
lines 149-159): iterate the consumed global facts; for each, save its
primary payload as the token-id filter (`mov EE, EB`), sum the inputs and
the outputs under that filter, and require equality.  The routine assigns
no error code (`E1` is untouched on this path, hence `staleE1`). -/
def LOOP_TOKEN_DIV (din dout : List StateValue) :
    List StateValue → Except Err Unit
  | [] => .ok ()
  | f :: fs =>
    match FN_NFT_SUM_INPUTS .staleE1 f.v1 din with
    | .error e => .error e
    | .ok s1 =>
      match FN_NFT_SUM_OUTPUTS .staleE1 f.v1 dout with
      | .error e => .error e
      | .ok s2 =>
        if ¬ eqR s1 s2 then .error .staleE1
        else LOOP_TOKEN_DIV din dout fs

/-- Procedure `FN_DIVISIBLE_TRANSFER` (divisible.rs lines 140-159): requires
that no global output fact exists (`cknxo immutable; not CO; chk CO`; no
error code was assigned), then runs the per-declared-token loop over the
consumed global facts.  Token ids that appear only in the destructible
cells are never visited (the source carries the TODO "Check that no tokens
not listed in global state are defined"). -/
def FN_DIVISIBLE_TRANSFER (gin gout din dout : List StateValue) : Except Err Unit :=
  if ¬ gout.isEmpty then .error .staleE1
  else LOOP_TOKEN_DIV din dout gin

/-! ## Collection verifier (collection.rs) -/

/-- Procedure `FN_RGB21_ISSUE` of the collection library (collection.rs
lines 42-125).  After `FN_ASSET_SPEC` the fractions check `eq EB, E2` with
`E2 = 1` runs on the populated `EB` (a real check, unlike the fungible and
unique genesis paths).  Routine `CHECK_TOKENS` then executes
`ldo immutable; chk CO; jif CO, +3; ret`: when no fact remains the `chk`
halts (no code was assigned); when a fact is read the `chk` passes and
leaves the flag in the success state, so the conditional jump cannot fire
and the routine returns at once — its token-verification body (the calls to
`FN_GLOBAL_VERIFY_TOKEN` and `VERIFY_AMOUNT`) is unreachable.  Procedure
`FN_UNIQUE` sets `E2 = 1`, passes its own counter check, and executes
`ldo destructible; jif CO, +3; ret`: loading an owned output leaves the
flag in the success state, the jump does not fire, and the procedure
returns success having verified nothing.  When no owned output exists the
jump fires into the stale-register rescan of the global state, which always
ends in rejection: the match counter collects at least the three preamble
facts (their `EC` is unpopulated and compares successfully against the
populated filter), so the `eq E2, E7` counter check fails, or — if the
counter happens to equal 1 — the rescan repeats with an unchanged filter
and never terminates, which the complexity limit of the machine converts
into a failure. -/
def FN_RGB21_ISSUE_COLLECTION (gin din gout dout : List StateValue) : Except Err Unit :=
  match FN_ASSET_SPEC gin din gout with
  | .error e => .error e
  | .ok (eb, rest) =>
    if ¬ eqR eb (some 1) then .error .staleE1
    else match rest with
    | [] => .error .staleE1
    | _f4 :: _ =>
      match dout with
      | [] => .error .staleE1
      | _ :: _ => .ok ()

/-! ## Basic lemmas about the register operations -/

@[simp] lemma eqR_some_some (a b : Nat) : eqR (some a) (some b) = (a == b) := rfl

@[simp] lemma eqR_none_none : eqR none none = false := rfl

@[simp] lemma eqR_some_none (a : Nat) : eqR (some a) none = true := rfl

@[simp] lemma eqR_none_some (a : Nat) : eqR none (some a) = true := rfl

@[simp] lemma testR_some (a : Nat) : testR (some a) = true := rfl

@[simp] lemma testR_none : testR none = false := rfl

@[simp] lemma fitsR_some (a w : Nat) : fitsR (some a) w = decide (a < 2 ^ w) := rfl

@[simp] lemma fitsR_none (w : Nat) : fitsR none w = true := rfl

@[simp] lemma addR_some_some (a b : Nat) :
    addR (some a) (some b) = some ((a + b) % FIELD_ORDER) := rfl

lemma two_pow_65_lt_FIELD_ORDER : 2 ^ 65 < FIELD_ORDER := by
  norm_num [FIELD_ORDER]

lemma addR_small (a b : Nat) (h : a + b < 2 ^ 65) :
    addR (some a) (some b) = some (a + b) := by
  simp [addR, Nat.mod_eq_of_lt (h.trans two_pow_65_lt_FIELD_ORDER)]

/-! ## Characterization of the 64-bit sum loops on plain amount cells -/

lemma LOOP_INPUTS_FUNG_char (xs : List Nat) :
    ∀ acc : Nat, acc < 2 ^ 64 →
      LOOP_INPUTS_FUNG none (xs.map amountCell) (some acc) =
        if acc + xs.sum < 2 ^ 64 then .ok (some (acc + xs.sum))
        else .error .ERRNO_INVALID_BALANCE_IN := by
  induction xs with
  | nil =>
    intro acc h
    simp only [List.map_nil, LOOP_INPUTS_FUNG, List.sum_nil, Nat.add_zero, if_pos h]
  | cons x xs ih =>
    intro acc h
    by_cases hx : x < 2 ^ 64
    · have hadd : addR (some acc) (some x) = some (acc + x) :=
        addR_small acc x (by omega)
      simp only [List.map_cons, List.sum_cons, LOOP_INPUTS_FUNG, amountCell, O_AMOUNT,
        eqR_some_some, eqR_none_none, testR_none, fitsR_some, hadd, decide_eq_true_eq]
      rw [if_neg (by simp), if_neg (by simp), if_neg (by simp),
        if_neg (not_not_intro hx)]
      by_cases hax : acc + x < 2 ^ 64
      · rw [if_neg (not_not_intro hax), ih (acc + x) hax, Nat.add_assoc]
      · rw [if_pos hax, if_neg (by omega)]
    · simp only [List.map_cons, List.sum_cons, LOOP_INPUTS_FUNG, amountCell, O_AMOUNT,
        eqR_some_some, eqR_none_none, testR_none, fitsR_some, decide_eq_true_eq]
      rw [if_neg (by simp), if_neg (by simp), if_neg (by simp), if_pos hx,
        if_neg (by omega)]

lemma LOOP_OUTPUTS_FUNG_char (xs : List Nat) :
    ∀ acc : Nat, acc < 2 ^ 64 →
      LOOP_OUTPUTS_FUNG (xs.map amountCell) (some acc) =
        if acc + xs.sum < 2 ^ 64 then .ok (some (acc + xs.sum))
        else .error .ERRNO_INVALID_BALANCE_OUT := by
  induction xs with
  | nil =>
    intro acc h
    simp only [List.map_nil, LOOP_OUTPUTS_FUNG, List.sum_nil, Nat.add_zero, if_pos h]
  | cons x xs ih =>
    intro acc h
    by_cases hx : x < 2 ^ 64
    · have hadd : addR (some acc) (some x) = some (acc + x) :=
        addR_small acc x (by omega)
      simp only [List.map_cons, List.sum_cons, LOOP_OUTPUTS_FUNG, amountCell, O_AMOUNT,
        eqR_some_some, testR_none, fitsR_some, hadd, decide_eq_true_eq]
      rw [if_neg (by simp), if_neg (by simp), if_neg (by simp),
        if_neg (not_not_intro hx)]
      by_cases hax : acc + x < 2 ^ 64
      · rw [if_neg (not_not_intro hax), ih (acc + x) hax, Nat.add_assoc]
      · rw [if_pos hax, if_neg (by omega)]
    · simp only [List.map_cons, List.sum_cons, LOOP_OUTPUTS_FUNG, amountCell, O_AMOUNT,
        eqR_some_some, testR_none, fitsR_some, decide_eq_true_eq]
      rw [if_neg (by simp), if_neg (by simp), if_neg (by simp), if_pos hx,
        if_neg (by omega)]

lemma LOOP_INPUTS_SHARED_char (e1 : Err) (xs : List Nat) :
    ∀ acc : Nat, acc < 2 ^ 64 →
      LOOP_INPUTS_SHARED e1 none (xs.map amountCell) (some acc) =
        if acc + xs.sum < 2 ^ 64 then .ok (some (acc + xs.sum))
        else .error e1 := by
  induction xs with
  | nil =>
    intro acc h
    simp only [List.map_nil, LOOP_INPUTS_SHARED, List.sum_nil, Nat.add_zero, if_pos h]
  | cons x xs ih =>
    intro acc h
    by_cases hx : x < 2 ^ 64
    · have hadd : addR (some acc) (some x) = some (acc + x) :=
        addR_small acc x (by omega)
      simp only [List.map_cons, List.sum_cons, LOOP_INPUTS_SHARED, amountCell, O_AMOUNT,
        eqR_some_some, eqR_none_none, testR_none, fitsR_some, hadd, decide_eq_true_eq]
      rw [if_neg (by simp), if_neg (by simp), if_neg (by simp), if_neg (by simp),
        if_neg (not_not_intro hx)]
      by_cases hax : acc + x < 2 ^ 64
      · rw [if_neg (not_not_intro hax), ih (acc + x) hax, Nat.add_assoc]
      · rw [if_pos hax, if_neg (by omega)]
    · simp only [List.map_cons, List.sum_cons, LOOP_INPUTS_SHARED, amountCell, O_AMOUNT,
        eqR_some_some, eqR_none_none, testR_none, fitsR_some, decide_eq_true_eq]
      rw [if_neg (by simp), if_neg (by simp), if_neg (by simp), if_neg (by simp),
        if_pos hx, if_neg (by omega)]

/-! ## Lemmas about the unique-token verification routines -/

lemma VERIFY_TOKEN_tokenCell (e1 : Err) (a f : Nat) :
    VERIFY_TOKEN e1 (tokenCell a f) =
      if f = 1 then .ok (some a) else .error .ERRNO_FRACTIONALITY := by
  by_cases hf : f = 1 <;> simp [VERIFY_TOKEN, FN_OWNED_TOKEN, tokenCell, hf]

lemma VERIFY_IN_TOKEN_cons (a f : Nat) (tl : List StateValue) :
    VERIFY_IN_TOKEN (tokenCell a f :: tl) =
      if f = 1 then
        (if tl = [] then .ok (some a) else .error .ERRNO_TOKEN_EXCESS_IN)
      else .error .ERRNO_FRACTIONALITY := by
  by_cases hf : f = 1
  · by_cases ht : tl = [] <;>
      simp [VERIFY_IN_TOKEN, VERIFY_TOKEN_tokenCell, hf, ht]
  · simp [VERIFY_IN_TOKEN, VERIFY_TOKEN_tokenCell, hf]

lemma VERIFY_OUT_TOKEN_cons (a f : Nat) (tl : List StateValue) :
    VERIFY_OUT_TOKEN (tokenCell a f :: tl) =
      if f = 1 then
        (if tl = [] then .ok (some a) else .error .ERRNO_TOKEN_EXCESS_OUT)
      else .error .ERRNO_FRACTIONALITY := by
  by_cases hf : f = 1
  · by_cases ht : tl = [] <;>
      simp [VERIFY_OUT_TOKEN, VERIFY_TOKEN_tokenCell, hf, ht]
  · simp [VERIFY_OUT_TOKEN, VERIFY_TOKEN_tokenCell, hf]

/-- Abbreviation: a list of unique-token allocation cells given by pairs of
token id and fractions. -/
def tokenCells (l : List (Nat × Nat)) : List StateValue :=
  l.map fun ab => tokenCell ab.1 ab.2

lemma FN_UNIQUE_TRANSFER_char (din dout : List (Nat × Nat)) :
    FN_UNIQUE_TRANSFER [] [] (tokenCells din) (tokenCells dout) =
      match din with
      | [] => .error .ERRNO_NO_INPUT
      | (a, f) :: tl =>
        if f = 1 then
          if tl = [] then
            match dout with
            | [] => .error .ERRNO_NO_OUTPUT
            | (b, g) :: tl2 =>
              if g = 1 then
                if tl2 = [] then
                  (if b = a then .ok () else .error .ERRNO_TOKEN_EXCESS_OUT)
                else .error .ERRNO_TOKEN_EXCESS_OUT
              else .error .ERRNO_FRACTIONALITY
          else .error .ERRNO_TOKEN_EXCESS_IN
        else .error .ERRNO_FRACTIONALITY := by
  cases din with
  | nil => simp [tokenCells, FN_UNIQUE_TRANSFER, FN_GLOBAL_ABSENT, VERIFY_IN_TOKEN]
  | cons hd tl =>
    obtain ⟨a, f⟩ := hd
    by_cases hf : f = 1
    · subst hf
      by_cases ht : tl = []
      · subst ht
        cases dout with
        | nil =>
          simp [tokenCells, FN_UNIQUE_TRANSFER, FN_GLOBAL_ABSENT, VERIFY_IN_TOKEN_cons,
            VERIFY_OUT_TOKEN]
        | cons hd2 tl2 =>
          obtain ⟨b, g⟩ := hd2
          by_cases hg : g = 1
          · subst hg
            by_cases ht2 : tl2 = []
            · subst ht2
              by_cases hab : b = a
              · subst hab
                simp [tokenCells, FN_UNIQUE_TRANSFER, FN_GLOBAL_ABSENT,
                  VERIFY_IN_TOKEN_cons, VERIFY_OUT_TOKEN_cons]
              · simp [tokenCells, FN_UNIQUE_TRANSFER, FN_GLOBAL_ABSENT,
                  VERIFY_IN_TOKEN_cons, VERIFY_OUT_TOKEN_cons, hab]
            · simp [tokenCells, FN_UNIQUE_TRANSFER, FN_GLOBAL_ABSENT,
                VERIFY_IN_TOKEN_cons, VERIFY_OUT_TOKEN_cons, ht2]
          · simp [tokenCells, FN_UNIQUE_TRANSFER, FN_GLOBAL_ABSENT,
              VERIFY_IN_TOKEN_cons, VERIFY_OUT_TOKEN_cons, hg]
      · simp [tokenCells, FN_UNIQUE_TRANSFER, FN_GLOBAL_ABSENT, VERIFY_IN_TOKEN_cons, ht]
    · simp [tokenCells, FN_UNIQUE_TRANSFER, FN_GLOBAL_ABSENT, VERIFY_IN_TOKEN_cons, hf]

/-! ## Claim theorems -/

/-- C3: for every cell set given to the 64-bit conservation checker (the
fungible input and output sum loops, and the shared-library input sum with
no filter), the checker rejects with an `INVALID_BALANCE` code as soon as a
single payload or the running sum would exceed `2 ^ 64 - 1` — equivalently,
whenever the total exceeds it — and otherwise returns exactly the integer
sum; a wrapped or field-reduced sum is never returned. -/
theorem claim_C3_sum_checker_exact_or_reject :
    (∀ xs : List Nat,
      FN_FUNGIBLE_SUM_INPUTS none (xs.map amountCell) =
        if xs.sum < 2 ^ 64 then .ok (some xs.sum)
        else .error .ERRNO_INVALID_BALANCE_IN)
  ∧ (∀ xs : List Nat,
      FN_FUNGIBLE_SUM_OUTPUTS (xs.map amountCell) =
        if xs.sum < 2 ^ 64 then .ok (some xs.sum)
        else .error .ERRNO_INVALID_BALANCE_OUT)
  ∧ (∀ (e1 : Err) (xs : List Nat),
      FN_SUM_INPUTS_SHARED e1 none (xs.map amountCell) =
        if xs.sum < 2 ^ 64 then .ok (some xs.sum)
        else .error e1) := by
  refine ⟨fun xs => ?_, fun xs => ?_, fun e1 xs => ?_⟩
  · show LOOP_INPUTS_FUNG none (xs.map amountCell) (some 0) = _
    rw [LOOP_INPUTS_FUNG_char xs 0 (by norm_num)]
    simp only [Nat.zero_add]
  · show LOOP_OUTPUTS_FUNG (xs.map amountCell) (some 0) = _
    rw [LOOP_OUTPUTS_FUNG_char xs 0 (by norm_num)]
    simp only [Nat.zero_add]
  · show LOOP_INPUTS_SHARED e1 none (xs.map amountCell) (some 0) = _
    rw [LOOP_INPUTS_SHARED_char e1 xs 0 (by norm_num)]
    simp only [Nat.zero_add]

/-- C10: the fungible transfer verifier accepts the operation with no global
facts, no destructible inputs and no destructible outputs, and more
generally any transfer of plain amount cells whose input and output sums
are both zero. -/
theorem claim_C10_empty_transfer_accepted :
    FN_FUNGIBLE_TRANSFER [] [] [] [] = .ok ()
  ∧ ∀ xs ys : List Nat, xs.sum = 0 → ys.sum = 0 →
      FN_FUNGIBLE_TRANSFER [] [] (xs.map amountCell) (ys.map amountCell) = .ok () := by
  constructor
  · rfl
  · intro xs ys hx hy
    have h1 : FN_FUNGIBLE_SUM_INPUTS none (xs.map amountCell) = .ok (some 0) := by
      show LOOP_INPUTS_FUNG none (xs.map amountCell) (some 0) = _
      rw [LOOP_INPUTS_FUNG_char xs 0 (by norm_num)]
      simp [hx]
    have h2 : FN_FUNGIBLE_SUM_OUTPUTS (ys.map amountCell) = .ok (some 0) := by
      show LOOP_OUTPUTS_FUNG (ys.map amountCell) (some 0) = _
      rw [LOOP_OUTPUTS_FUNG_char ys 0 (by norm_num)]
      simp [hy]
    simp [FN_FUNGIBLE_TRANSFER, FN_GLOBAL_ABSENT, h1, h2]

/-- Witness for C10 at a concrete zero-sum transfer. -/
theorem claim_C10_empty_transfer_accepted_witness :
    FN_FUNGIBLE_TRANSFER [] [] ([0].map amountCell) ([0, 0].map amountCell) = .ok () :=
  claim_C10_empty_transfer_accepted.2 [0] [0, 0] (by decide) (by decide)

/-- C1: a fungible transfer with no global facts on either side, whose
destructible cells are plain amount cells with 64-bit sums, is accepted
exactly when the input sum equals the output sum, and rejected with
`ERRNO_SUM_MISMATCH` otherwise; in particular a split of one input amount
across outputs summing to the same total is accepted (see the witness). -/
theorem claim_C1_fungible_transfer_conservation :
    ∀ xs ys : List Nat, xs.sum < 2 ^ 64 → ys.sum < 2 ^ 64 →
      (FN_FUNGIBLE_TRANSFER [] [] (xs.map amountCell) (ys.map amountCell) = .ok ()
        ↔ xs.sum = ys.sum)
    ∧ (xs.sum ≠ ys.sum →
        FN_FUNGIBLE_TRANSFER [] [] (xs.map amountCell) (ys.map amountCell) =
          .error .ERRNO_SUM_MISMATCH) := by
  intro xs ys hx hy
  have h1 : FN_FUNGIBLE_SUM_INPUTS none (xs.map amountCell) = .ok (some xs.sum) := by
    show LOOP_INPUTS_FUNG none (xs.map amountCell) (some 0) = _
    rw [LOOP_INPUTS_FUNG_char xs 0 (by norm_num)]
    simp only [Nat.zero_add]
    rw [if_pos hx]
  have h2 : FN_FUNGIBLE_SUM_OUTPUTS (ys.map amountCell) = .ok (some ys.sum) := by
    show LOOP_OUTPUTS_FUNG (ys.map amountCell) (some 0) = _
    rw [LOOP_OUTPUTS_FUNG_char ys 0 (by norm_num)]
    simp only [Nat.zero_add]
    rw [if_pos hy]
  have hres : FN_FUNGIBLE_TRANSFER [] [] (xs.map amountCell) (ys.map amountCell) =
      if xs.sum = ys.sum then .ok () else .error .ERRNO_SUM_MISMATCH := by
    by_cases hsum : xs.sum = ys.sum <;>
      simp [FN_FUNGIBLE_TRANSFER, FN_GLOBAL_ABSENT, h1, h2, hsum]
  rw [hres]
  by_cases hsum : xs.sum = ys.sum <;> simp [hsum]

/-- Witness for C1: the split of input `[1000]` into outputs `[100, 900]`
is accepted. -/
theorem claim_C1_fungible_transfer_conservation_witness :
    FN_FUNGIBLE_TRANSFER [] [] ([1000].map amountCell) ([100, 900].map amountCell) =
      .ok () :=
  (claim_C1_fungible_transfer_conservation [1000] [100, 900]
    (by decide) (by decide)).1.mpr (by decide)

/-- C4: the unique-token transfer is accepted exactly when there are no
global facts at all, exactly one destructible input, exactly one
destructible output, both with fractions exactly 1, and matching token
ids; the individual failures carry the codes `ERRNO_NO_INPUT`,
`ERRNO_TOKEN_EXCESS_IN`, `ERRNO_FRACTIONALITY`, `ERRNO_NO_OUTPUT`,
`ERRNO_TOKEN_EXCESS_OUT`, and an id mismatch is rejected (with the stale
code `ERRNO_TOKEN_EXCESS_OUT`, the last one assigned to `E1`). -/
theorem claim_C4_unique_transfer_characterization :
    (∀ (gin gout : List StateValue) (din dout : List (Nat × Nat)),
      FN_UNIQUE_TRANSFER gin gout (tokenCells din) (tokenCells dout) = .ok ()
        ↔ gin = [] ∧ gout = [] ∧ ∃ a, din = [(a, 1)] ∧ dout = [(a, 1)])
  ∧ (∀ dout : List (Nat × Nat),
      FN_UNIQUE_TRANSFER [] [] (tokenCells []) (tokenCells dout) =
        .error .ERRNO_NO_INPUT)
  ∧ (∀ (a : Nat) (c : Nat × Nat) (cs dout : List (Nat × Nat)),
      FN_UNIQUE_TRANSFER [] [] (tokenCells ((a, 1) :: c :: cs)) (tokenCells dout) =
        .error .ERRNO_TOKEN_EXCESS_IN)
  ∧ (∀ (a f : Nat) (dout : List (Nat × Nat)), f ≠ 1 →
      FN_UNIQUE_TRANSFER [] [] (tokenCells [(a, f)]) (tokenCells dout) =
        .error .ERRNO_FRACTIONALITY)
  ∧ (∀ a : Nat,
      FN_UNIQUE_TRANSFER [] [] (tokenCells [(a, 1)]) (tokenCells []) =
        .error .ERRNO_NO_OUTPUT)
  ∧ (∀ (a b : Nat) (c : Nat × Nat) (cs : List (Nat × Nat)),
      FN_UNIQUE_TRANSFER [] [] (tokenCells [(a, 1)]) (tokenCells ((b, 1) :: c :: cs)) =
        .error .ERRNO_TOKEN_EXCESS_OUT)
  ∧ (∀ a b f : Nat, f ≠ 1 →
      FN_UNIQUE_TRANSFER [] [] (tokenCells [(a, 1)]) (tokenCells [(b, f)]) =
        .error .ERRNO_FRACTIONALITY)
  ∧ (∀ a b : Nat, b ≠ a →
      FN_UNIQUE_TRANSFER [] [] (tokenCells [(a, 1)]) (tokenCells [(b, 1)]) =
        .error .ERRNO_TOKEN_EXCESS_OUT) := by
  refine ⟨?_, ?_, ?_, ?_, ?_, ?_, ?_, ?_⟩
  · intro gin gout din dout
    cases gin with
    | cons g gs => simp [FN_UNIQUE_TRANSFER, FN_GLOBAL_ABSENT]
    | nil =>
      cases gout with
      | cons g gs => simp [FN_UNIQUE_TRANSFER, FN_GLOBAL_ABSENT]
      | nil =>
        rw [FN_UNIQUE_TRANSFER_char]
        cases din with
        | nil => simp
        | cons hd tl =>
          obtain ⟨a, f⟩ := hd
          by_cases hf : f = 1
          · subst hf
            by_cases ht : tl = []
            · subst ht
              cases dout with
              | nil => simp
              | cons hd2 tl2 =>
                obtain ⟨b, g⟩ := hd2
                by_cases hg : g = 1
                · subst hg
                  by_cases ht2 : tl2 = []
                  · subst ht2
                    by_cases hab : b = a
                    · subst hab
                      simp
                    · simp [hab]
                  · simp [ht2]
                · simp [hg]
            · simp [ht]
          · simp [hf]
  · intro dout
    rw [FN_UNIQUE_TRANSFER_char]
  · intro a c cs dout
    rw [FN_UNIQUE_TRANSFER_char]
    simp
  · intro a f dout hf
    rw [FN_UNIQUE_TRANSFER_char]
    simp [hf]
  · intro a
    rw [FN_UNIQUE_TRANSFER_char]
    simp
  · intro a b c cs
    rw [FN_UNIQUE_TRANSFER_char]
    simp
  · intro a b f hf
    rw [FN_UNIQUE_TRANSFER_char]
    simp [hf]
  · intro a b hab
    rw [FN_UNIQUE_TRANSFER_char]
    simp [hab]

/-- Witness for C4: a one-in one-out transfer of token 7 with fractions 1
is accepted, and an id mismatch (7 in, 8 out) is rejected. -/
theorem claim_C4_unique_transfer_characterization_witness :
    FN_UNIQUE_TRANSFER [] [] (tokenCells [(7, 1)]) (tokenCells [(7, 1)]) = .ok ()
  ∧ FN_UNIQUE_TRANSFER [] [] (tokenCells [(7, 1)]) (tokenCells [(8, 1)]) =
      .error .ERRNO_TOKEN_EXCESS_OUT := by
  constructor
  · exact (claim_C4_unique_transfer_characterization.1 [] [] [(7, 1)] [(7, 1)]).mpr
      ⟨rfl, rfl, 7, rfl, rfl⟩
  · exact claim_C4_unique_transfer_characterization.2.2.2.2.2.2.2 7 8 (by decide)

/-- C6: the shared preamble checker first rejects operations with consumed
global or destructible inputs, then reads exactly three global facts in the
fixed order ticker-or-details, name, precision, verifying each tag; the
precision fact needs a populated primary payload and empty secondary and
tertiary slots; the first failing check determines the error code
(`NO_TICKER`, `NO_NAME`, `NO_PRECISION`, `INVALID_PRECISION`), and nothing
past the failing fact influences the result (each error case holds for an
arbitrary remainder of the fact list). -/
theorem claim_C6_asset_spec_preamble :
    (∀ (g : StateValue) (gs din gout : List StateValue),
      FN_ASSET_SPEC (g :: gs) din gout = .error .ERRNO_UNEXPECTED_GLOBAL_IN)
  ∧ (∀ (d : StateValue) (ds gout : List StateValue),
      FN_ASSET_SPEC [] (d :: ds) gout = .error .ERRNO_UNEXPECTED_OWNED_IN)
  ∧ (FN_ASSET_SPEC [] [] [] = .error .ERRNO_NO_TICKER)
  ∧ (∀ (f1 : StateValue) (g1 : List StateValue) (tg : Nat),
      f1.tag = some tg → tg ≠ G_TICKER →
      FN_ASSET_SPEC [] [] (f1 :: g1) = .error .ERRNO_NO_TICKER)
  ∧ (∀ f1 : StateValue, f1.tag = some G_TICKER →
      FN_ASSET_SPEC [] [] [f1] = .error .ERRNO_NO_NAME)
  ∧ (∀ (f1 f2 : StateValue) (g2 : List StateValue) (tg : Nat),
      f1.tag = some G_TICKER → f2.tag = some tg → tg ≠ G_NAME →
      FN_ASSET_SPEC [] [] (f1 :: f2 :: g2) = .error .ERRNO_NO_NAME)
  ∧ (∀ f1 f2 : StateValue, f1.tag = some G_TICKER → f2.tag = some G_NAME →
      FN_ASSET_SPEC [] [] [f1, f2] = .error .ERRNO_NO_PRECISION)
  ∧ (∀ (f1 f2 f3 : StateValue) (g3 : List StateValue) (tg : Nat),
      f1.tag = some G_TICKER → f2.tag = some G_NAME → f3.tag = some tg →
      tg ≠ G_PRECISION →
      FN_ASSET_SPEC [] [] (f1 :: f2 :: f3 :: g3) = .error .ERRNO_NO_PRECISION)
  ∧ (∀ (f1 f2 f3 : StateValue) (g3 : List StateValue),
      f1.tag = some G_TICKER → f2.tag = some G_NAME → f3.tag = some G_PRECISION →
      f3.v1 = none →
      FN_ASSET_SPEC [] [] (f1 :: f2 :: f3 :: g3) = .error .ERRNO_INVALID_PRECISION)
  ∧ (∀ (f1 f2 f3 : StateValue) (g3 : List StateValue) (p : Nat),
      f1.tag = some G_TICKER → f2.tag = some G_NAME → f3.tag = some G_PRECISION →
      f3.v1 = some p → (f3.v2 ≠ none ∨ f3.v3 ≠ none) →
      FN_ASSET_SPEC [] [] (f1 :: f2 :: f3 :: g3) = .error .ERRNO_INVALID_PRECISION)
  ∧ (∀ (f1 f2 : StateValue) (g3 : List StateValue) (p : Nat),
      f1.tag = some G_TICKER → f2.tag = some G_NAME →
      FN_ASSET_SPEC [] [] (f1 :: f2 :: ⟨some G_PRECISION, some p, none, none⟩ :: g3) =
        .ok (some p, g3)) := by
  refine ⟨?_, ?_, ?_, ?_, ?_, ?_, ?_, ?_, ?_, ?_, ?_⟩
  · intro g gs din gout; simp [FN_ASSET_SPEC]
  · intro d ds gout; simp [FN_ASSET_SPEC]
  · simp [FN_ASSET_SPEC]
  · intro f1 g1 tg h1 hne
    simp [FN_ASSET_SPEC, h1, hne]
  · intro f1 h1
    simp [FN_ASSET_SPEC, h1]
  · intro f1 f2 g2 tg h1 h2 hne
    simp [FN_ASSET_SPEC, h1, h2, hne]
  · intro f1 f2 h1 h2
    simp [FN_ASSET_SPEC, h1, h2]
  · intro f1 f2 f3 g3 tg h1 h2 h3 hne
    simp [FN_ASSET_SPEC, h1, h2, h3, hne]
  · intro f1 f2 f3 g3 h1 h2 h3 hv1
    simp [FN_ASSET_SPEC, h1, h2, h3, hv1]
  · intro f1 f2 f3 g3 p h1 h2 h3 hv1 hrest
    rcases hrest with hv2 | hv3
    · rcases Option.ne_none_iff_exists.mp hv2 with ⟨v, hv⟩
      simp [FN_ASSET_SPEC, h1, h2, h3, hv1, ← hv]
    · rcases Option.ne_none_iff_exists.mp hv3 with ⟨v, hv⟩
      cases hv2 : f3.v2 with
      | none => simp [FN_ASSET_SPEC, h1, h2, h3, hv1, hv2, ← hv]
      | some w => simp [FN_ASSET_SPEC, h1, h2, h3, hv1, hv2]
  · intro f1 f2 g3 p h1 h2
    simp [FN_ASSET_SPEC, h1, h2]

/-- Witness for C6: a correct preamble with precision payload 18 succeeds
returning the precision, and a missing name fact fails with
`ERRNO_NO_NAME`. -/
theorem claim_C6_asset_spec_preamble_witness :
    FN_ASSET_SPEC [] [] [tickerFact 0, nameFact 0,
        (⟨some G_PRECISION, some 18, none, none⟩ : StateValue)] = .ok (some 18, [])
  ∧ FN_ASSET_SPEC [] [] [tickerFact 0] = .error .ERRNO_NO_NAME := by
  constructor
  · exact claim_C6_asset_spec_preamble.2.2.2.2.2.2.2.2.2.2 (tickerFact 0) (nameFact 0)
      [] 18 rfl rfl
  · exact claim_C6_asset_spec_preamble.2.2.2.2.1 (tickerFact 0) rfl

/-- C2: a fungible genesis that passes the shared preamble reads exactly one
further global fact, the declared circulating supply; a wrong tag, a
missing primary payload or a populated secondary or tertiary payload in
that fact is an error; with a well-shaped supply fact carrying value `s`
and output cells summing to a 64-bit total, the verifier accepts exactly
when `s` equals the output sum and no further global fact remains, failing
with `ERRNO_SUM_ISSUE_MISMATCH` on a sum mismatch and with
`ERRNO_UNEXPECTED_GLOBAL` on a remaining fact. -/
theorem claim_C2_fungible_genesis_supply :
    ∀ (t n p : Nat) (sf : StateValue) (rest : List StateValue) (ys : List Nat),
      ys.sum < 2 ^ 64 →
      (∀ s : Nat, sf = supplyFact s →
        FN_FUNGIBLE_ISSUE [] []
            (tickerFact t :: nameFact n :: precisionFact p :: sf :: rest)
            (ys.map amountCell) =
          if s = ys.sum then
            (if rest = [] then .ok () else .error .ERRNO_UNEXPECTED_GLOBAL)
          else .error .ERRNO_SUM_ISSUE_MISMATCH)
    ∧ (∀ tg : Nat, sf.tag = some tg → tg ≠ G_SUPPLY →
        FN_FUNGIBLE_ISSUE [] []
            (tickerFact t :: nameFact n :: precisionFact p :: sf :: rest)
            (ys.map amountCell) = .error .ERRNO_NO_ISSUED)
    ∧ (sf.tag = some G_SUPPLY → sf.v1 = none →
        FN_FUNGIBLE_ISSUE [] []
            (tickerFact t :: nameFact n :: precisionFact p :: sf :: rest)
            (ys.map amountCell) = .error .ERRNO_NO_ISSUED)
    ∧ (∀ s : Nat, sf.tag = some G_SUPPLY → sf.v1 = some s →
        (sf.v2 ≠ none ∨ sf.v3 ≠ none) →
        FN_FUNGIBLE_ISSUE [] []
            (tickerFact t :: nameFact n :: precisionFact p :: sf :: rest)
            (ys.map amountCell) = .error .ERRNO_NO_ISSUED) := by
  intro t n p sf rest ys hy
  have hpre : FN_ASSET_SPEC [] []
      (tickerFact t :: nameFact n :: precisionFact p :: sf :: rest) =
      .ok (some p, sf :: rest) := by
    simp [FN_ASSET_SPEC, tickerFact, nameFact, precisionFact]
  have hsum : FN_FUNGIBLE_SUM_OUTPUTS (ys.map amountCell) = .ok (some ys.sum) := by
    show LOOP_OUTPUTS_FUNG (ys.map amountCell) (some 0) = _
    rw [LOOP_OUTPUTS_FUNG_char ys 0 (by norm_num)]
    simp only [Nat.zero_add]
    rw [if_pos hy]
  refine ⟨?_, ?_, ?_, ?_⟩
  · intro s hsf
    have htag : sf.tag = some G_SUPPLY := by rw [hsf]; rfl
    have hv1 : sf.v1 = some s := by rw [hsf]; rfl
    have hv2 : sf.v2 = none := by rw [hsf]; rfl
    have hv3 : sf.v3 = none := by rw [hsf]; rfl
    by_cases hs : s = ys.sum
    · subst hs
      by_cases hr : rest = []
      · subst hr
        simp [FN_FUNGIBLE_ISSUE, hpre, hsum, htag, hv1, hv2, hv3]
      · simp [FN_FUNGIBLE_ISSUE, hpre, hsum, htag, hv1, hv2, hv3, hr]
    · simp [FN_FUNGIBLE_ISSUE, hpre, hsum, htag, hv1, hv2, hv3, hs]
  · intro tg htag hne
    simp [FN_FUNGIBLE_ISSUE, hpre, htag, hne]
  · intro htag hv1
    simp [FN_FUNGIBLE_ISSUE, hpre, htag, hv1]
  · intro s htag hv1 hrest
    rcases hrest with hv2 | hv3
    · rcases Option.ne_none_iff_exists.mp hv2 with ⟨v, hv⟩
      simp [FN_FUNGIBLE_ISSUE, hpre, htag, hv1, ← hv]
    · rcases Option.ne_none_iff_exists.mp hv3 with ⟨v, hv⟩
      cases hv2 : sf.v2 with
      | none => simp [FN_FUNGIBLE_ISSUE, hpre, htag, hv1, hv2, ← hv]
      | some w => simp [FN_FUNGIBLE_ISSUE, hpre, htag, hv1, hv2]

/-- Witness for C2: the spec scenario — supply 1000 with one output of 1000
is accepted; with one output of 1001 the code is `ERRNO_SUM_ISSUE_MISMATCH`. -/
theorem claim_C2_fungible_genesis_supply_witness :
    FN_FUNGIBLE_ISSUE [] []
        [tickerFact 0, nameFact 0, precisionFact 18, supplyFact 1000]
        ([1000].map amountCell) = .ok ()
  ∧ FN_FUNGIBLE_ISSUE [] []
        [tickerFact 0, nameFact 0, precisionFact 18, supplyFact 1000]
        ([1001].map amountCell) = .error .ERRNO_SUM_ISSUE_MISMATCH := by
  constructor
  · have h := (claim_C2_fungible_genesis_supply 0 0 18 (supplyFact 1000) [] [1000]
      (by decide)).1 1000 rfl
    simpa using h
  · have h := (claim_C2_fungible_genesis_supply 0 0 18 (supplyFact 1000) [] [1001]
      (by decide)).1 1000 rfl
    simpa using h

/-- C7: the claim says the fungible genesis applies its 8-bit check to the
precision value returned by the preamble.  In the code the preamble returns
the precision in register `EB` while the caller checks register `E4`, which
is never assigned: the verdict of `FN_FUNGIBLE_ISSUE` is therefore
identical for any two precision payloads, and a genesis whose declared
precision (300) does not fit 8 bits is accepted instead of being rejected
with `PRECISION_OVERFLOW`. -/
theorem claim_C7_precision_check_not_applied :
    (∀ (p q s : Nat) (rest dout : List StateValue),
      FN_FUNGIBLE_ISSUE [] []
          (tickerFact 0 :: nameFact 0 :: precisionFact p :: supplyFact s :: rest) dout =
        FN_FUNGIBLE_ISSUE [] []
          (tickerFact 0 :: nameFact 0 :: precisionFact q :: supplyFact s :: rest) dout)
  ∧ FN_FUNGIBLE_ISSUE [] []
      [tickerFact 0, nameFact 0, precisionFact 300, supplyFact 100]
      [amountCell 100] = .ok () := by
  constructor
  · intro p q s rest dout
    have hp : FN_ASSET_SPEC [] []
        (tickerFact 0 :: nameFact 0 :: precisionFact p :: supplyFact s :: rest) =
        .ok (some p, supplyFact s :: rest) := by
      simp [FN_ASSET_SPEC, tickerFact, nameFact, precisionFact]
    have hq : FN_ASSET_SPEC [] []
        (tickerFact 0 :: nameFact 0 :: precisionFact q :: supplyFact s :: rest) =
        .ok (some q, supplyFact s :: rest) := by
      simp [FN_ASSET_SPEC, tickerFact, nameFact, precisionFact]
    simp [FN_FUNGIBLE_ISSUE, hp, hq]
  · rfl

/-- C8: the claim says the unique-token genesis requires the fractions value
returned by the preamble to equal 1 and the owned output id to match the
declared token id.  In the code the fractions comparison `eq E4, EH` runs
on the never-assigned register `E4` (the preamble returns in `EB`), so the
verdict is identical for any two declared fractions payloads and a genesis
declaring fractions 5 is accepted; moreover the declared token id (7) is
never compared against the owned output id (9), and that genesis is
accepted as well. -/
theorem claim_C8_unique_genesis_fractionality_not_checked :
    (∀ (p q : Nat) (rest dout : List StateValue),
      FN_RGB21_ISSUE_UNIQUE [] []
          (tickerFact 0 :: nameFact 0 :: precisionFact p :: rest) dout =
        FN_RGB21_ISSUE_UNIQUE [] []
          (tickerFact 0 :: nameFact 0 :: precisionFact q :: rest) dout)
  ∧ FN_RGB21_ISSUE_UNIQUE [] []
      [tickerFact 0, nameFact 0, precisionFact 5, nftFact 0]
      [tokenCell 0 1] = .ok ()
  ∧ FN_RGB21_ISSUE_UNIQUE [] []
      [tickerFact 0, nameFact 0, precisionFact 1, nftFact 7]
      [tokenCell 9 1] = .ok () := by
  refine ⟨?_, rfl, rfl⟩
  intro p q rest dout
  have hp : FN_ASSET_SPEC [] [] (tickerFact 0 :: nameFact 0 :: precisionFact p :: rest) =
      .ok (some p, rest) := by
    simp [FN_ASSET_SPEC, tickerFact, nameFact, precisionFact]
  have hq : FN_ASSET_SPEC [] [] (tickerFact 0 :: nameFact 0 :: precisionFact q :: rest) =
      .ok (some q, rest) := by
    simp [FN_ASSET_SPEC, tickerFact, nameFact, precisionFact]
  cases rest with
  | nil => simp [FN_RGB21_ISSUE_UNIQUE, hp, hq, VERIFY_GLOBAL_TOKEN]
  | cons f fs => simp [FN_RGB21_ISSUE_UNIQUE, hp, hq, VERIFY_GLOBAL_TOKEN]

/-- C9: the claim says a collection genesis is accepted exactly when the
declared token set and the owned allocations match one-to-one, and in
particular that declaring two tokens but allocating only one is rejected.
In the code the verification bodies of `CHECK_TOKENS` and `FN_UNIQUE` are
unreachable, so a genesis declaring tokens 0 and 1 with a single
allocation (of token 0) is accepted; an allocation of a completely
undeclared shape is accepted as well. -/
theorem claim_C9_collection_declared_allocated_not_matched :
    FN_RGB21_ISSUE_COLLECTION [] []
      [tickerFact 0, nameFact 0, precisionFact 1, nftFact 0, nftFact 1]
      [tokenCell 0 1] = .ok ()
  ∧ FN_RGB21_ISSUE_COLLECTION [] []
      [tickerFact 0, nameFact 0, precisionFact 1, nftFact 0, nftFact 1]
      [amountCell 17] = .ok () := ⟨rfl, rfl⟩

/-- C5: the claim says the divisible transfer balances every token id
appearing among the destructible cells.  In the code only token ids listed
among the consumed global facts are balanced: a transfer with no consumed
global facts, which burns 5 units of token 1 and mints 3 units of token 2,
is accepted although both per-token sums differ (token 1 has input sum 5
and output sum 0). -/
theorem claim_C5_divisible_per_token_conservation_skipped :
    FN_DIVISIBLE_TRANSFER [] [] [nftCell 5 1] [nftCell 3 2] = .ok ()
  ∧ FN_NFT_SUM_INPUTS .staleE1 (some 1) [nftCell 5 1] = .ok (some 5)
  ∧ FN_NFT_SUM_OUTPUTS .staleE1 (some 1) [nftCell 3 2] = .ok (some 0) := by
  refine ⟨rfl, ?_, rfl⟩
  show LOOP_INPUTS_NFT .staleE1 (some 1) [nftCell 5 1] (some 0) = .ok (some 5)
  have h5 : (0 + 5) % FIELD_ORDER = 5 := by
    rw [Nat.zero_add, Nat.mod_eq_of_lt]
    norm_num [FIELD_ORDER]
  simp [LOOP_INPUTS_NFT, nftCell, addR, h5]

end RgbIssuers
